import Mathlib

/-!
Shallow embedding of `ShimOptions::ShimOptions`
(src/Servers/IIS/AspNetCoreModuleV2/AspNetCore/ShimOptions.cpp) together with
the collaborator interfaces it consumes (`ConfigurationSource` sections,
environment lookup, the string helpers), and proofs of the specified
properties of the options-resolution logic.
-/

/-- The configuration key names consumed by the resolver (fixed names; the
header defining the `CS_ASPNETCORE_*` macros is not part of the sources, the
key strings are the ones the specification lists). -/
def CS_ASPNETCORE_SECTION : String := "system.webServer/aspNetCore"

def CS_ASPNETCORE_HOSTING_MODEL : String := "hostingModel"

def CS_ASPNETCORE_HOSTING_MODEL_OUTOFPROCESS : String := "outofprocess"

def CS_ASPNETCORE_HOSTING_MODEL_INPROCESS : String := "inprocess"

def CS_ASPNETCORE_HANDLER_SETTINGS : String := "handlerSettings"

def CS_ASPNETCORE_HANDLER_VERSION : String := "handlerVersion"

def CS_ASPNETCORE_PROCESS_EXE_PATH : String := "processPath"

def CS_ASPNETCORE_PROCESS_ARGUMENTS : String := "arguments"

def CS_ASPNETCORE_PROCESS_ARGUMENTS_DEFAULT : String := "."

def CS_ASPNETCORE_STDOUT_LOG_ENABLED : String := "stdoutLogEnabled"

def CS_ASPNETCORE_STDOUT_LOG_FILE : String := "stdoutLogFile"

def CS_ASPNETCORE_DISABLE_START_UP_ERROR_PAGE : String := "disableStartupErrorPage"

/-- Modelled from the spec: `equals_ignore_case` from StringHelpers.h (not under
src/): case-insensitive string equality, i.e. equality after lower-casing every
character. -/
def equals_ignore_case (a b : String) : Bool :=
  a.data.map Char.toLower == b.data.map Char.toLower

/-- Modelled from the spec: `find_element` from StringHelpers.h (not under
src/): case-sensitive lookup of a key in an ordered key/value mapping,
returning the value bound to the first matching key if any. -/
def find_element (pairs : List (String × String)) (key : String) : Option String :=
  (pairs.find? (fun p => p.1 == key)).map (fun p => p.2)

/-- The hosting-model enumeration (`APP_HOSTING_MODEL` from the headers):
the sentinel `HOSTING_UNKNOWN` the constructor starts from, plus the two
resolved modes. -/
inductive APP_HOSTING_MODEL where
  | HOSTING_UNKNOWN
  | HOSTING_IN_PROCESS
  | HOSTING_OUT_PROCESS
  deriving DecidableEq, Repr

/-- The error taxonomy of resolution (the C++ code throws
`ConfigurationLoadException`; the spec distinguishes the three causes). -/
inductive ConfigurationError where
  | MissingSectionError (name : String)
  | InvalidHostingModelError (value : String)
  | MissingRequiredFieldError (field : String)
  deriving DecidableEq, Repr

/-- The human-readable message carried by an error.  The
`InvalidHostingModelError` message is the format string of ShimOptions.cpp
with the offending value substituted; the other two are modelled from the
spec (the throwing accessors are not under src/), naming the field at fault. -/
def ConfigurationError.message : ConfigurationError → String
  | .MissingSectionError name => "Section '" ++ name ++ "' is required."
  | .InvalidHostingModelError v =>
      "Unknown hosting model '" ++ v ++
        "'. Please specify either hostingModel=\"inprocess\" or hostingModel=\"outofprocess\" in the web.config file."
  | .MissingRequiredFieldError f => "Attribute '" ++ f ++ "' is required."

/-- Modelled from the spec: a configuration section (the `ConfigurationSection`
interface is not under src/).  Scalar lookups return `none` when the key is
absent (for bools, also when unparseable); `getKeyValuePairs` returns the
ordered key/value mapping of a named sub-block. -/
structure ConfigSection where
  getString : String → Option String
  getBool : String → Option Bool
  getKeyValuePairs : String → List (String × String)

/-- Modelled from the spec: the configuration source, mapping a section name to
the section when present (`GetRequiredSection` fails when it is absent). -/
structure ConfigurationSource where
  getSection : String → Option ConfigSection

/-- Modelled from the spec: `GetRequiredString` — a required string field;
empty or missing fails with `MissingRequiredFieldError`. -/
def getRequiredString (sec : ConfigSection) (key : String) :
    Except ConfigurationError String :=
  match sec.getString key with
  | some v =>
      if v = "" then Except.error (ConfigurationError.MissingRequiredFieldError key)
      else Except.ok v
  | none => Except.error (ConfigurationError.MissingRequiredFieldError key)

/-- Modelled from the spec: `GetRequiredBool` — a required bool field; missing
or unparseable fails with `MissingRequiredFieldError`. -/
def getRequiredBool (sec : ConfigSection) (key : String) :
    Except ConfigurationError Bool :=
  match sec.getBool key with
  | some b => Except.ok b
  | none => Except.error (ConfigurationError.MissingRequiredFieldError key)

/-- The output record of resolution, with the member names of the
`ShimOptions` class. -/
structure ShimOptions where
  m_hostingModel : APP_HOSTING_MODEL
  m_strHandlerVersion : String
  m_strProcessPath : String
  m_strArguments : String
  m_fStdoutLogEnabled : Bool
  m_struStdoutLogFile : String
  m_fDisableStartupPage : Bool
  m_fIsDevelopment : Bool
  deriving DecidableEq, Repr

/-- The hosting-model dispatch of ShimOptions.cpp lines 19–32: empty or a
case-insensitive match of the out-of-process token yields out-of-process, a
case-insensitive match of the in-process token yields in-process, anything
else throws with the offending value in the message. -/
def resolveHostingModel (hostingModel : String) :
    Except ConfigurationError APP_HOSTING_MODEL :=
  if hostingModel = "" ∨
      equals_ignore_case hostingModel CS_ASPNETCORE_HOSTING_MODEL_OUTOFPROCESS = true then
    Except.ok APP_HOSTING_MODEL.HOSTING_OUT_PROCESS
  else if equals_ignore_case hostingModel CS_ASPNETCORE_HOSTING_MODEL_INPROCESS = true then
    Except.ok APP_HOSTING_MODEL.HOSTING_IN_PROCESS
  else
    Except.error (ConfigurationError.InvalidHostingModelError hostingModel)

/-- The conditional handler-settings lookup of ShimOptions.cpp lines 34–38:
only in out-of-process mode is the handlerSettings sub-block consulted, and
the handlerVersion value defaults to the empty string when the key is absent. -/
def handlerVersionFor (m : APP_HOSTING_MODEL) (sec : ConfigSection) : String :=
  match m with
  | APP_HOSTING_MODEL.HOSTING_OUT_PROCESS =>
      (find_element (sec.getKeyValuePairs CS_ASPNETCORE_HANDLER_SETTINGS)
        CS_ASPNETCORE_HANDLER_VERSION).getD ""
  | _ => ""

/-- The development-environment flag of ShimOptions.cpp lines 46–56: the OR of
the detailed-errors check ("1" or "true", case-insensitively) and the two
environment-name checks ("Development", case-insensitively), each over a
process environment variable defaulted to the empty string when absent. -/
def isDevelopmentFor (env : String → Option String) : Bool :=
  let detailedErrors := (env "ASPNETCORE_DETAILEDERRORS").getD ""
  let aspnetCoreEnvironment := (env "ASPNETCORE_ENVIRONMENT").getD ""
  let dotnetEnvironment := (env "DOTNET_ENVIRONMENT").getD ""
  let detailedErrorsEnabled :=
    equals_ignore_case "1" detailedErrors || equals_ignore_case "true" detailedErrors
  let aspnetCoreEnvironmentEnabled := equals_ignore_case "Development" aspnetCoreEnvironment
  let dotnetEnvironmentEnabled := equals_ignore_case "Development" dotnetEnvironment
  detailedErrorsEnabled || aspnetCoreEnvironmentEnabled || dotnetEnvironmentEnabled

/-- The body of the `ShimOptions` constructor after the required section has
been fetched (ShimOptions.cpp lines 17–56), with the C++ exception modelled as
the error branch of `Except`; error precedence follows the source order. -/
def resolveSection (sec : ConfigSection) (env : String → Option String) :
    Except ConfigurationError ShimOptions :=
  match resolveHostingModel ((sec.getString CS_ASPNETCORE_HOSTING_MODEL).getD "") with
  | Except.error e => Except.error e
  | Except.ok m =>
    match getRequiredString sec CS_ASPNETCORE_PROCESS_EXE_PATH with
    | Except.error e => Except.error e
    | Except.ok processPath =>
      match getRequiredBool sec CS_ASPNETCORE_STDOUT_LOG_ENABLED with
      | Except.error e => Except.error e
      | Except.ok stdoutLogEnabled =>
        match getRequiredString sec CS_ASPNETCORE_STDOUT_LOG_FILE with
        | Except.error e => Except.error e
        | Except.ok stdoutLogFile =>
          match getRequiredBool sec CS_ASPNETCORE_DISABLE_START_UP_ERROR_PAGE with
          | Except.error e => Except.error e
          | Except.ok disableStartupPage =>
            Except.ok
              { m_hostingModel := m
                m_strHandlerVersion := handlerVersionFor m sec
                m_strProcessPath := processPath
                m_strArguments :=
                  (sec.getString CS_ASPNETCORE_PROCESS_ARGUMENTS).getD
                    CS_ASPNETCORE_PROCESS_ARGUMENTS_DEFAULT
                m_fStdoutLogEnabled := stdoutLogEnabled
                m_struStdoutLogFile := stdoutLogFile
                m_fDisableStartupPage := disableStartupPage
                m_fIsDevelopment := isDevelopmentFor env }

/-- The whole constructor: fetch the required aspNetCore section, then resolve
against it; a missing section is fatal. -/
def resolve (cfg : ConfigurationSource) (env : String → Option String) :
    Except ConfigurationError ShimOptions :=
  match cfg.getSection CS_ASPNETCORE_SECTION with
  | some sec => resolveSection sec env
  | none => Except.error (ConfigurationError.MissingSectionError CS_ASPNETCORE_SECTION)

/-- A concrete configuration section: hostingModel absent, processPath and
stdoutLogFile present, bools present, handlerSettings binding handlerVersion
to "2.1". -/
def sampleSec : ConfigSection where
  getString := fun k =>
    if k = CS_ASPNETCORE_PROCESS_EXE_PATH then some "dotnet"
    else if k = CS_ASPNETCORE_STDOUT_LOG_FILE then some "log.txt"
    else none
  getBool := fun _ => some false
  getKeyValuePairs := fun _ => [(CS_ASPNETCORE_HANDLER_VERSION, "2.1")]

/-- A concrete configuration source exposing `sampleSec` under the aspNetCore
section name. -/
def sampleCfg : ConfigurationSource where
  getSection := fun n => if n = CS_ASPNETCORE_SECTION then some sampleSec else none

/-- A concrete environment with every variable absent. -/
def sampleEnv : String → Option String := fun _ => none

/-- The options record that resolving `sampleCfg` against `sampleEnv`
produces. -/
def sampleOptions : ShimOptions where
  m_hostingModel := APP_HOSTING_MODEL.HOSTING_OUT_PROCESS
  m_strHandlerVersion := "2.1"
  m_strProcessPath := "dotnet"
  m_strArguments := "."
  m_fStdoutLogEnabled := false
  m_struStdoutLogFile := "log.txt"
  m_fDisableStartupPage := false
  m_fIsDevelopment := false

/-- The string lookups of an in-process section: hostingModel "InProcess"
(mixed case), processPath and stdoutLogFile present. -/
def sampleStringsIn : String → Option String := fun k =>
  if k = CS_ASPNETCORE_HOSTING_MODEL then some "InProcess"
  else if k = CS_ASPNETCORE_PROCESS_EXE_PATH then some "dotnet"
  else if k = CS_ASPNETCORE_STDOUT_LOG_FILE then some "log.txt"
  else none

/-- An in-process section whose handlerSettings sub-block binds handlerVersion
to "9.9". -/
def sampleSecIn1 : ConfigSection where
  getString := sampleStringsIn
  getBool := fun _ => some false
  getKeyValuePairs := fun _ => [(CS_ASPNETCORE_HANDLER_VERSION, "9.9")]

/-- An in-process section with the same scalar lookups as `sampleSecIn1` but an
empty handlerSettings sub-block. -/
def sampleSecIn2 : ConfigSection where
  getString := sampleStringsIn
  getBool := fun _ => some false
  getKeyValuePairs := fun _ => []

/-- A section with no string fields at all (processPath missing in
particular). -/
def sampleSecNoPath : ConfigSection where
  getString := fun _ => none
  getBool := fun _ => some false
  getKeyValuePairs := fun _ => []

/-- A section whose processPath is present but empty. -/
def sampleSecEmptyPath : ConfigSection where
  getString := fun k => if k = CS_ASPNETCORE_PROCESS_EXE_PATH then some "" else none
  getBool := fun _ => some false
  getKeyValuePairs := fun _ => []

instance {ε α : Type} [DecidableEq ε] [DecidableEq α] : DecidableEq (Except ε α) := fun a b =>
  match a, b with
  | Except.ok x, Except.ok y =>
      if h : x = y then isTrue (by rw [h])
      else isFalse (by intro he; cases he; exact h rfl)
  | Except.error x, Except.error y =>
      if h : x = y then isTrue (by rw [h])
      else isFalse (by intro he; cases he; exact h rfl)
  | Except.ok _, Except.error _ => isFalse (by intro he; cases he)
  | Except.error _, Except.ok _ => isFalse (by intro he; cases he)

example : resolveHostingModel "" = Except.ok APP_HOSTING_MODEL.HOSTING_OUT_PROCESS := by decide

example : resolveHostingModel "OutOfProcess" = Except.ok APP_HOSTING_MODEL.HOSTING_OUT_PROCESS := by decide

example : resolveHostingModel "INPROCESS" = Except.ok APP_HOSTING_MODEL.HOSTING_IN_PROCESS := by decide

example : resolveHostingModel "weird-value" =
    Except.error (ConfigurationError.InvalidHostingModelError "weird-value") := by decide

example : resolve sampleCfg sampleEnv = Except.ok sampleOptions := by decide

example : resolveSection sampleSecIn1 sampleEnv = resolveSection sampleSecIn2 sampleEnv := by decide

theorem eqic_eq {a b : String} (h : equals_ignore_case a b = true) :
    a.data.map Char.toLower = b.data.map Char.toLower := by
  simpa [equals_ignore_case] using h

theorem resolveHostingModel_empty_or_out {s : String}
    (h : s = "" ∨ equals_ignore_case s CS_ASPNETCORE_HOSTING_MODEL_OUTOFPROCESS = true) :
    resolveHostingModel s = Except.ok APP_HOSTING_MODEL.HOSTING_OUT_PROCESS := by
  unfold resolveHostingModel
  rw [if_pos h]

theorem resolveHostingModel_in {s : String}
    (h : equals_ignore_case s CS_ASPNETCORE_HOSTING_MODEL_INPROCESS = true) :
    resolveHostingModel s = Except.ok APP_HOSTING_MODEL.HOSTING_IN_PROCESS := by
  have h1 := eqic_eq h
  have hne : ¬(s = "" ∨
      equals_ignore_case s CS_ASPNETCORE_HOSTING_MODEL_OUTOFPROCESS = true) := by
    rintro (hs | ho)
    · subst hs
      exact absurd h1 (by decide)
    · have h2 := eqic_eq ho
      rw [h1] at h2
      exact absurd h2 (by decide)
  unfold resolveHostingModel
  rw [if_neg hne, if_pos h]

theorem resolveHostingModel_invalid {s : String} (h0 : s ≠ "")
    (h1 : equals_ignore_case s CS_ASPNETCORE_HOSTING_MODEL_OUTOFPROCESS = false)
    (h2 : equals_ignore_case s CS_ASPNETCORE_HOSTING_MODEL_INPROCESS = false) :
    resolveHostingModel s = Except.error (ConfigurationError.InvalidHostingModelError s) := by
  have hA : ¬(s = "" ∨
      equals_ignore_case s CS_ASPNETCORE_HOSTING_MODEL_OUTOFPROCESS = true) := by
    rintro (hs | ho)
    · exact h0 hs
    · rw [h1] at ho
      cases ho
  have hB : ¬(equals_ignore_case s CS_ASPNETCORE_HOSTING_MODEL_INPROCESS = true) := by
    rw [h2]
    simp
  unfold resolveHostingModel
  rw [if_neg hA, if_neg hB]

theorem resolveHostingModel_ok_cases {s : String} {m : APP_HOSTING_MODEL}
    (h : resolveHostingModel s = Except.ok m) :
    m = APP_HOSTING_MODEL.HOSTING_OUT_PROCESS ∨ m = APP_HOSTING_MODEL.HOSTING_IN_PROCESS := by
  unfold resolveHostingModel at h
  split at h
  · injection h with h
    exact Or.inl h.symm
  · split at h
    · injection h with h
      exact Or.inr h.symm
    · simp at h

theorem resolveSection_ok_elim (sec : ConfigSection) (env : String → Option String)
    (o : ShimOptions) (h : resolveSection sec env = Except.ok o) :
    ∃ m processPath stdoutLogEnabled stdoutLogFile disableStartupPage,
      resolveHostingModel ((sec.getString CS_ASPNETCORE_HOSTING_MODEL).getD "") = Except.ok m ∧
      getRequiredString sec CS_ASPNETCORE_PROCESS_EXE_PATH = Except.ok processPath ∧
      getRequiredBool sec CS_ASPNETCORE_STDOUT_LOG_ENABLED = Except.ok stdoutLogEnabled ∧
      getRequiredString sec CS_ASPNETCORE_STDOUT_LOG_FILE = Except.ok stdoutLogFile ∧
      getRequiredBool sec CS_ASPNETCORE_DISABLE_START_UP_ERROR_PAGE = Except.ok disableStartupPage ∧
      o = { m_hostingModel := m
            m_strHandlerVersion := handlerVersionFor m sec
            m_strProcessPath := processPath
            m_strArguments :=
              (sec.getString CS_ASPNETCORE_PROCESS_ARGUMENTS).getD
                CS_ASPNETCORE_PROCESS_ARGUMENTS_DEFAULT
            m_fStdoutLogEnabled := stdoutLogEnabled
            m_struStdoutLogFile := stdoutLogFile
            m_fDisableStartupPage := disableStartupPage
            m_fIsDevelopment := isDevelopmentFor env } := by
  unfold resolveSection at h
  split at h
  · simp at h
  · rename_i m hm
    split at h
    · simp at h
    · rename_i processPath hpp
      split at h
      · simp at h
      · rename_i sle hsle
        split at h
        · simp at h
        · rename_i slf hslf
          split at h
          · simp at h
          · rename_i dsp hdsp
            injection h with h
            exact ⟨m, processPath, sle, slf, dsp, hm, hpp, hsle, hslf, hdsp, h.symm⟩

theorem resolve_ok_elim (cfg : ConfigurationSource) (env : String → Option String)
    (o : ShimOptions) (h : resolve cfg env = Except.ok o) :
    ∃ sec, cfg.getSection CS_ASPNETCORE_SECTION = some sec ∧
      resolveSection sec env = Except.ok o := by
  unfold resolve at h
  split at h
  · rename_i sec hsec
    exact ⟨sec, hsec, h⟩
  · simp at h

/-- C1: resolution of the optional hostingModel string sets the hosting model
to out-of-process when the value is absent or empty or case-insensitively
equals "outofprocess", to in-process when it case-insensitively equals
"inprocess", and absence of the field is never an error. -/
theorem c1_hosting_model_resolution (s : String) :
    ((s = "" ∨ equals_ignore_case s CS_ASPNETCORE_HOSTING_MODEL_OUTOFPROCESS = true) →
      resolveHostingModel s = Except.ok APP_HOSTING_MODEL.HOSTING_OUT_PROCESS) ∧
    (equals_ignore_case s CS_ASPNETCORE_HOSTING_MODEL_INPROCESS = true →
      resolveHostingModel s = Except.ok APP_HOSTING_MODEL.HOSTING_IN_PROCESS) ∧
    (∀ (sec : ConfigSection),
      sec.getString CS_ASPNETCORE_HOSTING_MODEL = none →
      resolveHostingModel ((sec.getString CS_ASPNETCORE_HOSTING_MODEL).getD "") =
        Except.ok APP_HOSTING_MODEL.HOSTING_OUT_PROCESS) ∧
    ∀ (sec : ConfigSection) (env : String → Option String) (o : ShimOptions),
      resolveSection sec env = Except.ok o →
      resolveHostingModel ((sec.getString CS_ASPNETCORE_HOSTING_MODEL).getD "") =
        Except.ok o.m_hostingModel :=
  ⟨resolveHostingModel_empty_or_out,
   resolveHostingModel_in,
   fun _ h => by
    rw [h]
    exact resolveHostingModel_empty_or_out (Or.inl rfl),
   fun sec env o h => by
    obtain ⟨m, pp, sle, slf, dsp, hm, _, _, _, _, ho⟩ := resolveSection_ok_elim sec env o h
    have : o.m_hostingModel = m := by rw [ho]
    rw [this]
    exact hm⟩

/-- Witness for C1 at concrete inputs: "OutOfProcess" and "INPROCESS", and a
section whose hostingModel field is absent. -/
theorem c1_hosting_model_resolution_witness :
    resolveHostingModel "OutOfProcess" = Except.ok APP_HOSTING_MODEL.HOSTING_OUT_PROCESS ∧
    resolveHostingModel "INPROCESS" = Except.ok APP_HOSTING_MODEL.HOSTING_IN_PROCESS ∧
    resolveHostingModel ((sampleSec.getString CS_ASPNETCORE_HOSTING_MODEL).getD "") =
      Except.ok APP_HOSTING_MODEL.HOSTING_OUT_PROCESS ∧
    resolveHostingModel ((sampleSec.getString CS_ASPNETCORE_HOSTING_MODEL).getD "") =
      Except.ok sampleOptions.m_hostingModel :=
  ⟨(c1_hosting_model_resolution "OutOfProcess").1 (Or.inr (by decide)),
   (c1_hosting_model_resolution "INPROCESS").2.1 (by decide),
   (c1_hosting_model_resolution "x").2.2.1 sampleSec (by decide),
   (c1_hosting_model_resolution "x").2.2.2 sampleSec sampleEnv sampleOptions (by decide)⟩

/-- C2: when the hosting model resolves to in-process, the handlerSettings
sub-block is never consulted — the result is identical for any two sections
agreeing on the scalar lookups regardless of their key/value sub-blocks — and
the resulting handlerVersion is the empty string. -/
theorem c2_inprocess_ignores_handler_settings
    (sec1 sec2 : ConfigSection) (env : String → Option String)
    (hs : sec1.getString = sec2.getString) (hb : sec1.getBool = sec2.getBool)
    (hm : resolveHostingModel ((sec1.getString CS_ASPNETCORE_HOSTING_MODEL).getD "") =
      Except.ok APP_HOSTING_MODEL.HOSTING_IN_PROCESS) :
    resolveSection sec1 env = resolveSection sec2 env ∧
    ∀ o, resolveSection sec1 env = Except.ok o → o.m_strHandlerVersion = "" := by
  have hm2 : resolveHostingModel ((sec2.getString CS_ASPNETCORE_HOSTING_MODEL).getD "") =
      Except.ok APP_HOSTING_MODEL.HOSTING_IN_PROCESS := by
    rw [← hs]
    exact hm
  have hrs : ∀ k, getRequiredString sec1 k = getRequiredString sec2 k := fun k => by
    unfold getRequiredString
    rw [hs]
  have hrb : ∀ k, getRequiredBool sec1 k = getRequiredBool sec2 k := fun k => by
    unfold getRequiredBool
    rw [hb]
  constructor
  · unfold resolveSection
    rw [hm, hm2]
    simp [hs, hb, hrs, hrb, handlerVersionFor]
  · intro o ho
    obtain ⟨m, pp, sle, slf, dsp, hm', hpp, hsle, hslf, hdsp, ho'⟩ :=
      resolveSection_ok_elim sec1 env o ho
    rw [hm] at hm'
    injection hm' with hmeq
    subst hmeq
    rw [ho']
    simp [handlerVersionFor]

/-- Witness for C2: two concrete in-process sections sharing scalar lookups
but differing in their handlerSettings sub-block resolve identically. -/
theorem c2_inprocess_ignores_handler_settings_witness :
    resolveSection sampleSecIn1 sampleEnv = resolveSection sampleSecIn2 sampleEnv :=
  (c2_inprocess_ignores_handler_settings sampleSecIn1 sampleSecIn2 sampleEnv rfl rfl
    (by decide)).1

/-- C3: any non-empty hostingModel value matching neither token
case-insensitively makes resolution fail with InvalidHostingModelError whose
message contains the offending value, and no options record is produced. -/
theorem c3_invalid_hosting_model (s : String) (h0 : s ≠ "")
    (h1 : equals_ignore_case s CS_ASPNETCORE_HOSTING_MODEL_OUTOFPROCESS = false)
    (h2 : equals_ignore_case s CS_ASPNETCORE_HOSTING_MODEL_INPROCESS = false) :
    resolveHostingModel s = Except.error (ConfigurationError.InvalidHostingModelError s) ∧
    (∃ pre post, (ConfigurationError.InvalidHostingModelError s).message = pre ++ s ++ post) ∧
    ∀ (sec : ConfigSection) (env : String → Option String),
      (sec.getString CS_ASPNETCORE_HOSTING_MODEL).getD "" = s →
      resolveSection sec env =
        Except.error (ConfigurationError.InvalidHostingModelError s) := by
  refine ⟨resolveHostingModel_invalid h0 h1 h2,
    ⟨"Unknown hosting model '",
     "'. Please specify either hostingModel=\"inprocess\" or hostingModel=\"outofprocess\" in the web.config file.",
     rfl⟩, ?_⟩
  intro sec env hgs
  unfold resolveSection
  rw [hgs, resolveHostingModel_invalid h0 h1 h2]

/-- Witness for C3 at the concrete value "weird-value". -/
theorem c3_invalid_hosting_model_witness :
    resolveHostingModel "weird-value" =
      Except.error (ConfigurationError.InvalidHostingModelError "weird-value") :=
  (c3_invalid_hosting_model "weird-value" (by decide) (by decide) (by decide)).1

/-- C4: the development flag of a successful resolution is exactly the OR of
the three environment-variable checks (detailed-errors equals "1" or "true"
case-insensitively, each environment name equals "Development"
case-insensitively, absent variables read as the empty string and fail every
check), and no value of the configuration source influences it. -/
theorem c4_is_development_env_only (cfg : ConfigurationSource)
    (env : String → Option String) (o : ShimOptions)
    (h : resolve cfg env = Except.ok o) :
    (o.m_fIsDevelopment =
      ((equals_ignore_case "1" ((env "ASPNETCORE_DETAILEDERRORS").getD "") ||
        equals_ignore_case "true" ((env "ASPNETCORE_DETAILEDERRORS").getD "")) ||
       equals_ignore_case "Development" ((env "ASPNETCORE_ENVIRONMENT").getD "") ||
       equals_ignore_case "Development" ((env "DOTNET_ENVIRONMENT").getD ""))) ∧
    (env "ASPNETCORE_DETAILEDERRORS" = none → env "ASPNETCORE_ENVIRONMENT" = none →
      env "DOTNET_ENVIRONMENT" = none → o.m_fIsDevelopment = false) ∧
    ∀ (cfg2 : ConfigurationSource) (o2 : ShimOptions),
      resolve cfg2 env = Except.ok o2 → o2.m_fIsDevelopment = o.m_fIsDevelopment := by
  have key : ∀ (c : ConfigurationSource) (oo : ShimOptions),
      resolve c env = Except.ok oo → oo.m_fIsDevelopment = isDevelopmentFor env := by
    intro c oo hc
    obtain ⟨sec, hsec, hres⟩ := resolve_ok_elim c env oo hc
    obtain ⟨m, pp, sle, slf, dsp, hm, hpp, hsle, hslf, hdsp, ho⟩ :=
      resolveSection_ok_elim sec env oo hres
    rw [ho]
  have h1 := key cfg o h
  refine ⟨by rw [h1]; rfl, ?_, ?_⟩
  · intro ha hb hc
    rw [h1]
    unfold isDevelopmentFor
    rw [ha, hb, hc]
    decide
  · intro cfg2 o2 h2
    rw [key cfg2 o2 h2, h1]

/-- Witness for C4: with every environment variable absent, the sample
resolution carries a false development flag. -/
theorem c4_is_development_env_only_witness : sampleOptions.m_fIsDevelopment = false := by
  have h := c4_is_development_env_only sampleCfg sampleEnv sampleOptions (by decide)
  exact h.2.1 rfl rfl rfl

/-- C5: in out-of-process mode a successful resolution sets handlerVersion to
the value the handlerSettings sub-block binds to the key "handlerVersion"
(case-sensitive key match) and to the empty string when that key is absent. -/
theorem c5_out_process_handler_version (sec : ConfigSection)
    (env : String → Option String) (o : ShimOptions)
    (hm : resolveHostingModel ((sec.getString CS_ASPNETCORE_HOSTING_MODEL).getD "") =
      Except.ok APP_HOSTING_MODEL.HOSTING_OUT_PROCESS)
    (h : resolveSection sec env = Except.ok o) :
    o.m_strHandlerVersion =
      (find_element (sec.getKeyValuePairs CS_ASPNETCORE_HANDLER_SETTINGS)
        CS_ASPNETCORE_HANDLER_VERSION).getD "" ∧
    (∀ v, find_element (sec.getKeyValuePairs CS_ASPNETCORE_HANDLER_SETTINGS)
        CS_ASPNETCORE_HANDLER_VERSION = some v → o.m_strHandlerVersion = v) ∧
    (find_element (sec.getKeyValuePairs CS_ASPNETCORE_HANDLER_SETTINGS)
        CS_ASPNETCORE_HANDLER_VERSION = none → o.m_strHandlerVersion = "") ∧
    ∀ v, find_element [(CS_ASPNETCORE_HANDLER_VERSION, v)]
        CS_ASPNETCORE_HANDLER_VERSION = some v ∧
      find_element [("HandlerVersion", v)] CS_ASPNETCORE_HANDLER_VERSION = none := by
  obtain ⟨m, pp, sle, slf, dsp, hm', hpp, hsle, hslf, hdsp, ho⟩ :=
    resolveSection_ok_elim sec env o h
  rw [hm] at hm'
  injection hm' with hmeq
  subst hmeq
  have hbase : o.m_strHandlerVersion =
      (find_element (sec.getKeyValuePairs CS_ASPNETCORE_HANDLER_SETTINGS)
        CS_ASPNETCORE_HANDLER_VERSION).getD "" := by
    rw [ho]
    simp [handlerVersionFor]
  refine ⟨hbase, ?_, ?_, ?_⟩
  · intro v hv
    rw [hbase, hv]
    rfl
  · intro hv
    rw [hbase, hv]
    rfl
  · intro v
    constructor
    · simp [find_element, List.find?,
        show (CS_ASPNETCORE_HANDLER_VERSION == CS_ASPNETCORE_HANDLER_VERSION) = true from by decide]
    · simp [find_element, List.find?,
        show ("HandlerVersion" == CS_ASPNETCORE_HANDLER_VERSION) = false from by decide]

/-- Witness for C5: the sample out-of-process section binds handlerVersion to
"2.1" and the resolved record carries it. -/
theorem c5_out_process_handler_version_witness : sampleOptions.m_strHandlerVersion = "2.1" := by
  have h := c5_out_process_handler_version sampleSec sampleEnv sampleOptions (by decide) (by decide)
  exact h.2.1 "2.1" (by decide)

/-- C6: a missing or empty processPath makes resolution fail — no options
record is ever produced, and once the hosting model resolved the failure is
MissingRequiredFieldError for processPath. -/
theorem c6_missing_process_path (sec : ConfigSection) (env : String → Option String)
    (hp : sec.getString CS_ASPNETCORE_PROCESS_EXE_PATH = none ∨
      sec.getString CS_ASPNETCORE_PROCESS_EXE_PATH = some "") :
    (∀ o, resolveSection sec env ≠ Except.ok o) ∧
    ∀ m, resolveHostingModel ((sec.getString CS_ASPNETCORE_HOSTING_MODEL).getD "") =
        Except.ok m →
      resolveSection sec env =
        Except.error
          (ConfigurationError.MissingRequiredFieldError CS_ASPNETCORE_PROCESS_EXE_PATH) := by
  have hreq : getRequiredString sec CS_ASPNETCORE_PROCESS_EXE_PATH =
      Except.error
        (ConfigurationError.MissingRequiredFieldError CS_ASPNETCORE_PROCESS_EXE_PATH) := by
    unfold getRequiredString
    rcases hp with h | h
    · rw [h]
    · rw [h]
      simp
  constructor
  · intro o ho
    obtain ⟨m, pp, sle, slf, dsp, hm, hpp, _⟩ := resolveSection_ok_elim sec env o ho
    rw [hreq] at hpp
    simp at hpp
  · intro m hm
    unfold resolveSection
    rw [hm, hreq]

/-- Witness for C6: a section whose processPath is present but empty fails
with MissingRequiredFieldError. -/
theorem c6_missing_process_path_witness :
    resolveSection sampleSecEmptyPath sampleEnv =
      Except.error
        (ConfigurationError.MissingRequiredFieldError CS_ASPNETCORE_PROCESS_EXE_PATH) :=
  (c6_missing_process_path sampleSecEmptyPath sampleEnv (Or.inr (by decide))).2
    APP_HOSTING_MODEL.HOSTING_OUT_PROCESS (by decide)

/-- C7: the arguments field of a successful resolution is the fixed default
"." when the optional arguments string is absent, and the configured value
unchanged when it is present. -/
theorem c7_arguments_default (sec : ConfigSection) (env : String → Option String)
    (o : ShimOptions) (h : resolveSection sec env = Except.ok o) :
    (sec.getString CS_ASPNETCORE_PROCESS_ARGUMENTS = none →
      o.m_strArguments = CS_ASPNETCORE_PROCESS_ARGUMENTS_DEFAULT) ∧
    (∀ v, sec.getString CS_ASPNETCORE_PROCESS_ARGUMENTS = some v → o.m_strArguments = v) ∧
    CS_ASPNETCORE_PROCESS_ARGUMENTS_DEFAULT = "." := by
  obtain ⟨m, pp, sle, slf, dsp, hm, hpp, hsle, hslf, hdsp, ho⟩ :=
    resolveSection_ok_elim sec env o h
  refine ⟨?_, ?_, rfl⟩
  · intro ha
    rw [ho]
    simp [ha]
  · intro v hv
    rw [ho]
    simp [hv]

/-- Witness for C7: the sample section has no arguments field and the resolved
record carries the default. -/
theorem c7_arguments_default_witness :
    sampleOptions.m_strArguments = CS_ASPNETCORE_PROCESS_ARGUMENTS_DEFAULT :=
  (c7_arguments_default sampleSec sampleEnv sampleOptions (by decide)).1 (by decide)

/-- C8: resolution is all-or-nothing — for every configuration and environment
it yields either a fully populated options record or an error, and never
both. -/
theorem c8_no_partial_result (cfg : ConfigurationSource) (env : String → Option String) :
    ((∃ o, resolve cfg env = Except.ok o) ∨ (∃ e, resolve cfg env = Except.error e)) ∧
    ¬((∃ o, resolve cfg env = Except.ok o) ∧ ∃ e, resolve cfg env = Except.error e) := by
  constructor
  · cases h : resolve cfg env with
    | ok o => exact Or.inl ⟨o, rfl⟩
    | error e => exact Or.inr ⟨e, rfl⟩
  · rintro ⟨⟨o, ho⟩, ⟨e, he⟩⟩
    rw [ho] at he
    simp at he

/-- C9: resolution is deterministic — identical configuration contents and
identical environment values yield identical outcomes. -/
theorem c9_deterministic (cfg1 cfg2 : ConfigurationSource)
    (env1 env2 : String → Option String)
    (hc : cfg1.getSection = cfg2.getSection) (he : env1 = env2) :
    resolve cfg1 env1 = resolve cfg2 env2 := by
  subst he
  unfold resolve
  rw [hc]

/-- Witness for C9 at the concrete sample configuration and environment. -/
theorem c9_deterministic_witness :
    resolve sampleCfg sampleEnv = resolve sampleCfg sampleEnv :=
  c9_deterministic sampleCfg sampleCfg sampleEnv sampleEnv rfl rfl

/-- C10: a successful resolution carries a hosting model that is one of the
two resolved modes; the initial HOSTING_UNKNOWN sentinel is never
observable. -/
theorem c10_never_unknown (cfg : ConfigurationSource) (env : String → Option String)
    (o : ShimOptions) (h : resolve cfg env = Except.ok o) :
    (o.m_hostingModel = APP_HOSTING_MODEL.HOSTING_OUT_PROCESS ∨
      o.m_hostingModel = APP_HOSTING_MODEL.HOSTING_IN_PROCESS) ∧
    o.m_hostingModel ≠ APP_HOSTING_MODEL.HOSTING_UNKNOWN := by
  obtain ⟨sec, hsec, hres⟩ := resolve_ok_elim cfg env o h
  obtain ⟨m, pp, sle, slf, dsp, hm, _, _, _, _, ho⟩ := resolveSection_ok_elim sec env o hres
  have hfield : o.m_hostingModel = m := by rw [ho]
  have hcases := resolveHostingModel_ok_cases hm
  constructor
  · rw [hfield]
    exact hcases
  · rw [hfield]
    rcases hcases with h1 | h1 <;> rw [h1] <;> decide

/-- Witness for C10: the sample resolution carries an out-of-process hosting
model, not the sentinel. -/
theorem c10_never_unknown_witness :
    sampleOptions.m_hostingModel ≠ APP_HOSTING_MODEL.HOSTING_UNKNOWN :=
  (c10_never_unknown sampleCfg sampleEnv sampleOptions (by decide)).2
